import Mathlib

/-
Verification of the darksky.rs decode layer.

The JSON decode layer of the library is embedded shallowly:

* The JSON value tree (serde_json's `Value`) is modelled by `Darksky.Value`.
  JSON numbers are modelled by `Darksky.JNum`: numbers that the parser stores
  as machine integers (serde_json's `I64`/`U64` variants) are `JNum.int`, and
  numbers stored as `f64` (fractional literals) are `JNum.flt`, carrying an
  exact rational payload.  The decode layer performs no arithmetic on numbers,
  it only tests representability and passes the payload through, so the exact
  rational stands in for the `f64` payload faithfully.
* JSON objects are association lists (`JMap`); the parser produces maps with
  unique keys, and the `&mut Map` threading of the Rust code is modelled by
  the state monad `Dec` over `JMap`.
* The decode helper functions of the repository's `utils` module (`remove`,
  `into_map`, `into_string`, `opt`, `decode_array`, the `req!` and
  `map_names!` macros) are not present in the source tree: only their callers
  in `src/models.rs` are.  Those primitives are modelled from the spec
  (sections 4.1-4.3 and 7) and are marked as such in their doc comments.
* Everything in `src/models.rs` and `src/lib.rs` is translated directly.
-/

set_option maxRecDepth 4000

namespace Darksky

/-- A JSON number as stored by the external parser: `int` for numbers the
parser keeps as machine integers, `flt` for numbers parsed to `f64`
(the payload is the exact rational the decode layer merely carries along). -/
inductive JNum : Type where
  | int (n : Int)
  | flt (q : Rat)
deriving DecidableEq

/-- The JSON value tree supplied by the external parser (serde_json `Value`). -/
inductive Value : Type where
  | null
  | bool (b : Bool)
  | num (n : JNum)
  | str (s : String)
  | arr (xs : List Value)
  | obj (m : List (String × Value))

/-- A JSON object, as an association list with unique keys. -/
abbrev JMap := List (String × Value)

/-- Coercion of a JSON value to an unsigned 64-bit integer (serde_json's
`as_u64`): only integer-stored numbers in `u64` range qualify; `f64`-stored
numbers (in particular all fractional numbers) and non-numbers yield `none`,
so fractional values are never truncated. -/
def Value.as_u64 : Value → Option Nat
  | .num (.int n) => if 0 ≤ n ∧ n < (2 : Int) ^ 64 then some n.toNat else none
  | _ => none

/-- Coercion of a JSON value to a float (serde_json's `as_f64`): any JSON
number qualifies, nothing else does. -/
def Value.as_f64 : Value → Option Rat
  | .num (.int n) => some (n : Rat)
  | .num (.flt q) => some q
  | _ => none

/-- Modelled from the spec (§7): the decode-error taxonomy.  The source's
`error.rs` declares a single `Error::Decode(&'static str, Value)` wire
variant, but every construction site of a decode error lives in the `utils`
module, which is absent from the source tree; the spec's `Missing` /
`TypeMismatch` taxonomy is used for those constructions. -/
inductive DecodeError : Type where
  | Missing (field : String)
  | TypeMismatch (field : String) (expected : String) (actual : Value)

/-- The decode monad: `&mut Map<String, Value>` threading plus fail-fast
error propagation. -/
abbrev Dec (α : Type) := StateT JMap (Except DecodeError) α

/-- Whether an `Except` result is a success. -/
def isOk : Except DecodeError α → Bool
  | .ok _ => true
  | .error _ => false

/-- First binding of a key in a JSON object. -/
def jlookup : JMap → String → Option Value
  | [], _ => none
  | (k, v) :: rest, key => if k = key then some v else jlookup rest key

/-- Remove every binding of a key from a JSON object (on the unique-key maps
the parser produces, this is exactly `Map::remove`). -/
def eraseKey (key : String) : JMap → JMap
  | [] => []
  | (k, v) :: rest => if k = key then eraseKey key rest else (k, v) :: eraseKey key rest

/-- Modelled from the spec (§4.1): `remove` from the missing `utils` module.
Removes the named field from the object; an absent field is the
missing-required-field error naming the field. -/
def remove (key : String) : Dec Value := fun m =>
  match jlookup m key with
  | some v => .ok (v, eraseKey key m)
  | none => .error (.Missing key)

/-- Modelled from the spec (§4.1): `into_map` from the missing `utils`
module.  The value must be a JSON object. -/
def into_map : Value → Except DecodeError JMap
  | .obj m => .ok m
  | v => .error (.TypeMismatch "into_map" "object" v)

/-- Modelled from the spec (§4.1): `into_string` from the missing `utils`
module.  String fields accept only JSON strings. -/
def into_string : Value → Except DecodeError String
  | .str s => .ok s
  | v => .error (.TypeMismatch "into_string" "string" v)

/-- Modelled from the spec (§4.1): the `req!(try!(remove(...)).as_u64())`
call shape of `src/models.rs` — required extraction of an unsigned 64-bit
integer field, failing with a type mismatch that names the field and carries
the offending value when the coercion rejects it. -/
def req_u64 (key : String) : Dec Nat := fun m =>
  match remove key m with
  | .error e => .error e
  | .ok (v, m1) =>
    match v.as_u64 with
    | some n => .ok (n, m1)
    | none => .error (.TypeMismatch key "u64" v)

/-- Modelled from the spec (§4.1): the `req!(try!(remove(...)).as_f64())`
call shape — required extraction of a floating field; any JSON number is
accepted. -/
def req_f64 (key : String) : Dec Rat := fun m =>
  match remove key m with
  | .error e => .error e
  | .ok (v, m1) =>
    match v.as_f64 with
    | some q => .ok (q, m1)
    | none => .error (.TypeMismatch key "f64" v)

/-- Modelled from the spec (§4.1): the `remove(...).and_then(into_string)`
call shape — required extraction of a string field. -/
def req_str (key : String) : Dec String := fun m =>
  match remove key m with
  | .error e => .error e
  | .ok (v, m1) =>
    match into_string v with
    | .ok s => .ok (s, m1)
    | .error e => .error e

/-- The `remove(...).and_then(Decoder::decode)` call shape — required
extraction threaded through a nested decoder, whose failure propagates
unchanged. -/
def req_with (key : String) (d : Value → Except DecodeError α) : Dec α := fun m =>
  match remove key m with
  | .error e => .error e
  | .ok (v, m1) =>
    match d v with
    | .ok a => .ok (a, m1)
    | .error e => .error e

/-- Modelled from the spec (§4.1): `opt` from the missing `utils` module
(take_optional).  An absent field yields `none`; a present field is passed to
the decoder and a decoder failure propagates (absence is tolerated,
malformation is not). -/
def opt (key : String) (d : Value → Except DecodeError α) : Dec (Option α) := fun m =>
  match jlookup m key with
  | none => .ok (none, m)
  | some v =>
    match d v with
    | .ok a => .ok (some a, eraseKey key m)
    | .error e => .error e

/-- The `remove(...).ok().and_then(|v| coerce(v))` call shape of
`src/models.rs`: the field is removed if present, and both absence and a
failed coercion yield `none` — no error is ever raised. -/
def optCoerce (key : String) (coe : Value → Option α) : Dec (Option α) := fun m =>
  match jlookup m key with
  | none => .ok (none, m)
  | some v => .ok (coe v, eraseKey key m)

/-- Element-wise decoding of a list of JSON values: the first element failure
aborts the whole operation with that failure unchanged. -/
def decode_elems (d : Value → Except DecodeError α) : List Value → Except DecodeError (List α)
  | [] => .ok []
  | x :: xs =>
    match d x with
    | .error e => .error e
    | .ok a =>
      match decode_elems d xs with
      | .error e => .error e
      | .ok as => .ok (a :: as)

/-- Modelled from the spec (§4.3): `decode_array` from the missing `utils`
module.  The value must be a JSON array; every element is passed to the
element decoder, the first failure aborts with that failure unchanged, and on
success the output order matches input order. -/
def decode_array (v : Value) (d : Value → Except DecodeError α) : Except DecodeError (List α) :=
  match v with
  | .arr xs => decode_elems d xs
  | v => .error (.TypeMismatch "decode_array" "array" v)

/-- Case-sensitive exact lookup of a token string in an enum token table. -/
def lookupTok (s : String) : List (α × String) → Option α
  | [] => none
  | (a, t) :: rest => if s = t then some a else lookupTok s rest

/-- The `Icon` enum of `src/models.rs`. -/
inductive Icon : Type where
  | ClearDay
  | ClearNight
  | Cloudy
  | Fog
  | Hail
  | PartlyCloudyDay
  | PartlyCloudyNight
  | Rain
  | Sleet
  | Snow
  | Thunderstorm
  | Tornado
  | Wind
deriving DecidableEq, Fintype

/-- The token table of `map_names! { Icon; ... }` in `src/models.rs`. -/
def Icon.table : List (Icon × String) :=
  [ (.ClearDay, "clear-day")
  , (.ClearNight, "clear-night")
  , (.Cloudy, "cloudy")
  , (.Fog, "fog")
  , (.Hail, "hail")
  , (.PartlyCloudyDay, "partly-cloudy-day")
  , (.PartlyCloudyNight, "partly-cloudy-night")
  , (.Rain, "rain")
  , (.Sleet, "sleet")
  , (.Snow, "snow")
  , (.Thunderstorm, "thunderstorm")
  , (.Tornado, "tornado")
  , (.Wind, "wind")
  ]

/-- Encoding of an `Icon` to its API token (the `name` side of
`map_names!`). -/
def Icon.name : Icon → String
  | .ClearDay => "clear-day"
  | .ClearNight => "clear-night"
  | .Cloudy => "cloudy"
  | .Fog => "fog"
  | .Hail => "hail"
  | .PartlyCloudyDay => "partly-cloudy-day"
  | .PartlyCloudyNight => "partly-cloudy-night"
  | .Rain => "rain"
  | .Sleet => "sleet"
  | .Snow => "snow"
  | .Thunderstorm => "thunderstorm"
  | .Tornado => "tornado"
  | .Wind => "wind"

/-- The expected-kind text used by the modelled enum mapper for `Icon`. -/
def iconExpected : String := "one of the known Icon tokens"

/-- Modelled from the spec (§4.2): the decode side of `map_names!` for
`Icon` (the macro body is in the missing `utils` module; the token table is
from `src/models.rs`).  The value must be a JSON string matching a known
token exactly and case-sensitively; anything else is a type mismatch carrying
the offending value verbatim. -/
def Icon.decode (v : Value) : Except DecodeError Icon :=
  match v with
  | .str s =>
    match lookupTok s Icon.table with
    | some i => .ok i
    | none => .error (.TypeMismatch "Icon" iconExpected (.str s))
  | v => .error (.TypeMismatch "Icon" iconExpected v)

/-- The `PrecipitationType` enum of `src/models.rs`. -/
inductive PrecipitationType : Type where
  | Rain
  | Sleet
  | Snow
deriving DecidableEq, Fintype

/-- The token table of `map_names! { PrecipitationType; ... }`. -/
def PrecipitationType.table : List (PrecipitationType × String) :=
  [ (.Rain, "rain")
  , (.Sleet, "sleet")
  , (.Snow, "snow")
  ]

/-- Encoding of a `PrecipitationType` to its API token. -/
def PrecipitationType.name : PrecipitationType → String
  | .Rain => "rain"
  | .Sleet => "sleet"
  | .Snow => "snow"

/-- The expected-kind text used by the modelled enum mapper for
`PrecipitationType`. -/
def precipExpected : String := "one of the known PrecipitationType tokens"

/-- Modelled from the spec (§4.2): the decode side of `map_names!` for
`PrecipitationType`. -/
def PrecipitationType.decode (v : Value) : Except DecodeError PrecipitationType :=
  match v with
  | .str s =>
    match lookupTok s PrecipitationType.table with
    | some p => .ok p
    | none => .error (.TypeMismatch "PrecipitationType" precipExpected (.str s))
  | v => .error (.TypeMismatch "PrecipitationType" precipExpected v)

/-- The `Alert` entity of `src/models.rs`. -/
structure Alert : Type where
  expires : Nat
  description : String
  title : String
  uri : String
deriving DecidableEq

/-- The body of `Alert::decode` after `into_map` (fields extracted in the
struct-literal order of the source). -/
def Alert.decodeM : Dec Alert := do
  let description ← req_str "description"
  let expires ← req_u64 "expires"
  let title ← req_str "title"
  let uri ← req_str "uri"
  pure ⟨expires, description, title, uri⟩

/-- `Alert::decode` from `src/models.rs`. -/
def Alert.decode (v : Value) : Except DecodeError Alert :=
  (into_map v).bind fun m => (Alert.decodeM.run m).map fun p => p.1

/-- The `Current` entity of `src/models.rs`. -/
structure Current : Type where
  apparent_temperature : Rat
  cloud_cover : Rat
  dew_point : Rat
  humidity : Rat
  icon : Icon
  nearest_storm_bearing : Option Nat
  nearest_storm_distance : Option Nat
  ozone : Rat
  precip_intensity : Nat
  precip_probability : Nat
  pressure : Rat
  summary : String
  temperature : Rat
  time : Nat
  visibility : Option Rat
  wind_bearing : Nat
  wind_speed : Rat
deriving DecidableEq

/-- The body of `Current::decode` after `into_map`. -/
def Current.decodeM : Dec Current := do
  let apparent_temperature ← req_f64 "apparentTemperature"
  let cloud_cover ← req_f64 "cloudCover"
  let dew_point ← req_f64 "dewPoint"
  let humidity ← req_f64 "humidity"
  let icon ← req_with "icon" Icon.decode
  let nearest_storm_bearing ← optCoerce "nearestStormBearing" Value.as_u64
  let nearest_storm_distance ← optCoerce "nearestStormDistance" Value.as_u64
  let ozone ← req_f64 "ozone"
  let precip_intensity ← req_u64 "precipIntensity"
  let precip_probability ← req_u64 "precipProbability"
  let pressure ← req_f64 "pressure"
  let summary ← req_str "summary"
  let temperature ← req_f64 "temperature"
  let time ← req_u64 "time"
  let visibility ← optCoerce "visibility" Value.as_f64
  let wind_bearing ← req_u64 "windBearing"
  let wind_speed ← req_f64 "windSpeed"
  pure ⟨apparent_temperature, cloud_cover, dew_point, humidity, icon,
    nearest_storm_bearing, nearest_storm_distance, ozone, precip_intensity,
    precip_probability, pressure, summary, temperature, time, visibility,
    wind_bearing, wind_speed⟩

/-- `Current::decode` from `src/models.rs`. -/
def Current.decode (v : Value) : Except DecodeError Current :=
  (into_map v).bind fun m => (Current.decodeM.run m).map fun p => p.1

/-- The `DailyData` entity of `src/models.rs`. -/
structure DailyData : Type where
  apparent_temperature_max_time : Nat
  apparent_temperature_max : Rat
  apparent_temperature_min_time : Nat
  apparent_temperature_min : Rat
  cloud_cover : Rat
  dew_point : Rat
  humidity : Rat
  icon : Icon
  moon_phase : Rat
  ozone : Rat
  precip_intensity_max : Rat
  precip_intensity : Rat
  precip_probability : Rat
  precip_type : Option PrecipitationType
  pressure : Rat
  summary : String
  sunrise_time : Nat
  sunset_time : Nat
  temperature_max_time : Nat
  temperature_max : Rat
  temperature_min_time : Nat
  temperature_min : Rat
  time : Nat
  visibility : Option Rat
  wind_bearing : Rat
  wind_speed : Rat
deriving DecidableEq

/-- The body of `DailyData::decode` after `into_map`. -/
def DailyData.decodeM : Dec DailyData := do
  let apparent_temperature_max_time ← req_u64 "apparentTemperatureMaxTime"
  let apparent_temperature_max ← req_f64 "apparentTemperatureMax"
  let apparent_temperature_min_time ← req_u64 "apparentTemperatureMinTime"
  let apparent_temperature_min ← req_f64 "apparentTemperatureMin"
  let cloud_cover ← req_f64 "cloudCover"
  let dew_point ← req_f64 "dewPoint"
  let humidity ← req_f64 "humidity"
  let icon ← req_with "icon" Icon.decode
  let moon_phase ← req_f64 "moonPhase"
  let ozone ← req_f64 "ozone"
  let precip_intensity_max ← req_f64 "precipIntensityMax"
  let precip_intensity ← req_f64 "precipIntensity"
  let precip_probability ← req_f64 "precipProbability"
  let precip_type ← opt "precipType" PrecipitationType.decode
  let pressure ← req_f64 "pressure"
  let summary ← req_str "summary"
  let sunrise_time ← req_u64 "sunriseTime"
  let sunset_time ← req_u64 "sunsetTime"
  let temperature_max_time ← req_u64 "temperatureMaxTime"
  let temperature_max ← req_f64 "temperatureMax"
  let temperature_min_time ← req_u64 "temperatureMinTime"
  let temperature_min ← req_f64 "temperatureMin"
  let time ← req_u64 "time"
  let visibility ← optCoerce "visibility" Value.as_f64
  let wind_bearing ← req_f64 "windBearing"
  let wind_speed ← req_f64 "windSpeed"
  pure ⟨apparent_temperature_max_time, apparent_temperature_max,
    apparent_temperature_min_time, apparent_temperature_min, cloud_cover,
    dew_point, humidity, icon, moon_phase, ozone, precip_intensity_max,
    precip_intensity, precip_probability, precip_type, pressure, summary,
    sunrise_time, sunset_time, temperature_max_time, temperature_max,
    temperature_min_time, temperature_min, time, visibility, wind_bearing,
    wind_speed⟩

/-- `DailyData::decode` from `src/models.rs`. -/
def DailyData.decode (v : Value) : Except DecodeError DailyData :=
  (into_map v).bind fun m => (DailyData.decodeM.run m).map fun p => p.1

/-- The `Daily` entity of `src/models.rs`. -/
structure Daily : Type where
  data : List DailyData
  icon : Icon
  summary : String
deriving DecidableEq

/-- The body of `Daily::decode` after `into_map`. -/
def Daily.decodeM : Dec Daily := do
  let data ← req_with "data" fun v => decode_array v DailyData.decode
  let icon ← req_with "icon" Icon.decode
  let summary ← req_str "summary"
  pure ⟨data, icon, summary⟩

/-- `Daily::decode` from `src/models.rs`. -/
def Daily.decode (v : Value) : Except DecodeError Daily :=
  (into_map v).bind fun m => (Daily.decodeM.run m).map fun p => p.1

/-- The `Flags` entity of `src/models.rs`. -/
structure Flags : Type where
  darksky_stations : Option (List String)
  darksky_unavailable : Option String
  datapoint_stations : Option (List String)
  isd_stations : Option (List String)
  lamp_stations : Option (List String)
  metar_stations : Option (List String)
  metno_license : Option String
  sources : Option (List String)
  units : Option String
deriving DecidableEq

/-- The body of `Flags::decode` after `into_map`. -/
def Flags.decodeM : Dec Flags := do
  let darksky_stations ← opt "darksky-stations" fun v => decode_array v into_string
  let darksky_unavailable ← opt "darksky-unavailable" into_string
  let datapoint_stations ← opt "datapoint-stations" fun v => decode_array v into_string
  let isd_stations ← opt "isd-stations" fun v => decode_array v into_string
  let lamp_stations ← opt "lamp-stations" fun v => decode_array v into_string
  let metar_stations ← opt "metar-stations" fun v => decode_array v into_string
  let metno_license ← opt "metno-license" into_string
  let sources ← opt "sources" fun v => decode_array v into_string
  let units ← opt "units" into_string
  pure ⟨darksky_stations, darksky_unavailable, datapoint_stations,
    isd_stations, lamp_stations, metar_stations, metno_license, sources,
    units⟩

/-- `Flags::decode` from `src/models.rs`. -/
def Flags.decode (v : Value) : Except DecodeError Flags :=
  (into_map v).bind fun m => (Flags.decodeM.run m).map fun p => p.1

/-- The `HourlyData` entity of `src/models.rs`. -/
structure HourlyData : Type where
  apparent_temperature : Rat
  cloud_cover : Rat
  dew_point : Rat
  humidity : Rat
  icon : Icon
  ozone : Rat
  precip_intensity : Rat
  precip_probability : Rat
  precip_type : Option PrecipitationType
  pressure : Rat
  summary : String
  temperature : Rat
  time : Nat
  visibility : Option Rat
  wind_bearing : Rat
  wind_speed : Rat
deriving DecidableEq

/-- The body of `HourlyData::decode` after `into_map`. -/
def HourlyData.decodeM : Dec HourlyData := do
  let apparent_temperature ← req_f64 "apparentTemperature"
  let cloud_cover ← req_f64 "cloudCover"
  let dew_point ← req_f64 "dewPoint"
  let humidity ← req_f64 "humidity"
  let icon ← req_with "icon" Icon.decode
  let ozone ← req_f64 "ozone"
  let precip_intensity ← req_f64 "precipIntensity"
  let precip_probability ← req_f64 "precipProbability"
  let precip_type ← opt "precipType" PrecipitationType.decode
  let pressure ← req_f64 "pressure"
  let summary ← req_str "summary"
  let temperature ← req_f64 "temperature"
  let time ← req_u64 "time"
  let visibility ← optCoerce "visibility" Value.as_f64
  let wind_bearing ← req_f64 "windBearing"
  let wind_speed ← req_f64 "windSpeed"
  pure ⟨apparent_temperature, cloud_cover, dew_point, humidity, icon, ozone,
    precip_intensity, precip_probability, precip_type, pressure, summary,
    temperature, time, visibility, wind_bearing, wind_speed⟩

/-- `HourlyData::decode` from `src/models.rs`. -/
def HourlyData.decode (v : Value) : Except DecodeError HourlyData :=
  (into_map v).bind fun m => (HourlyData.decodeM.run m).map fun p => p.1

/-- The `Hourly` entity of `src/models.rs`. -/
structure Hourly : Type where
  data : List HourlyData
  icon : Icon
  summary : String
deriving DecidableEq

/-- The body of `Hourly::decode` after `into_map`. -/
def Hourly.decodeM : Dec Hourly := do
  let data ← req_with "data" fun v => decode_array v HourlyData.decode
  let icon ← req_with "icon" Icon.decode
  let summary ← req_str "summary"
  pure ⟨data, icon, summary⟩

/-- `Hourly::decode` from `src/models.rs`. -/
def Hourly.decode (v : Value) : Except DecodeError Hourly :=
  (into_map v).bind fun m => (Hourly.decodeM.run m).map fun p => p.1

/-- The `MinutelyData` entity of `src/models.rs`. -/
structure MinutelyData : Type where
  precip_intensity : Rat
  precip_probability : Rat
  time : Nat
deriving DecidableEq

/-- The body of `MinutelyData::decode` after `into_map`. -/
def MinutelyData.decodeM : Dec MinutelyData := do
  let precip_intensity ← req_f64 "precipIntensity"
  let precip_probability ← req_f64 "precipProbability"
  let time ← req_u64 "time"
  pure ⟨precip_intensity, precip_probability, time⟩

/-- `MinutelyData::decode` from `src/models.rs`. -/
def MinutelyData.decode (v : Value) : Except DecodeError MinutelyData :=
  (into_map v).bind fun m => (MinutelyData.decodeM.run m).map fun p => p.1

/-- The `Minutely` entity of `src/models.rs`. -/
structure Minutely : Type where
  data : List MinutelyData
  icon : Icon
  summary : String
deriving DecidableEq

/-- The body of `Minutely::decode` after `into_map`. -/
def Minutely.decodeM : Dec Minutely := do
  let data ← req_with "data" fun v => decode_array v MinutelyData.decode
  let icon ← req_with "icon" Icon.decode
  let summary ← req_str "summary"
  pure ⟨data, icon, summary⟩

/-- `Minutely::decode` from `src/models.rs`. -/
def Minutely.decode (v : Value) : Except DecodeError Minutely :=
  (into_map v).bind fun m => (Minutely.decodeM.run m).map fun p => p.1

/-- The `Forecast` entity of `src/models.rs`: `currently`, `daily`, `flags`,
`hourly`, `latitude`, `longitude`, `offset` and `timezone` are required;
`minutely` is optional and `alerts` defaults to the empty list. -/
structure Forecast : Type where
  alerts : List Alert
  currently : Current
  daily : Daily
  flags : Flags
  hourly : Hourly
  latitude : Rat
  longitude : Rat
  minutely : Option Minutely
  offset : Rat
  timezone : String
deriving DecidableEq

/-- The body of `Forecast::decode` after `into_map` (fields extracted in the
struct-literal order of the source; `alerts` is `opt(...).unwrap_or(vec![])`). -/
def Forecast.decodeM : Dec Forecast := do
  let alerts ← opt "alerts" fun v => decode_array v Alert.decode
  let currently ← req_with "currently" Current.decode
  let daily ← req_with "daily" Daily.decode
  let flags ← req_with "flags" Flags.decode
  let hourly ← req_with "hourly" Hourly.decode
  let latitude ← req_f64 "latitude"
  let longitude ← req_f64 "longitude"
  let minutely ← opt "minutely" Minutely.decode
  let offset ← req_f64 "offset"
  let timezone ← req_str "timezone"
  pure ⟨alerts.getD [], currently, daily, flags, hourly, latitude, longitude,
    minutely, offset, timezone⟩

/-- `Forecast::decode` from `src/models.rs`, the top-level entry point. -/
def Forecast.decode (v : Value) : Except DecodeError Forecast :=
  (into_map v).bind fun m => (Forecast.decodeM.run m).map fun p => p.1

/-- The `Block` enum of `src/lib.rs`. -/
inductive Block : Type where
  | Currently
  | Daily
  | Flags
  | Hourly
  | Minutely
deriving DecidableEq, Fintype

/-- `Block::name` from `src/lib.rs`. -/
def Block.name : Block → String
  | .Currently => "currently"
  | .Daily => "daily"
  | .Flags => "flags"
  | .Hourly => "hourly"
  | .Minutely => "minutely"

/-- The serde rename table of `Block` in `src/lib.rs`. -/
def Block.table : List (Block × String) :=
  [ (.Currently, "currently")
  , (.Daily, "daily")
  , (.Flags, "flags")
  , (.Hourly, "hourly")
  , (.Minutely, "minutely")
  ]

/-- Modelled from the spec (§4.2): the decode side of the `Block` mapper
(the serde-derived deserializer is generated code; its token table is the
rename attributes in `src/lib.rs`). -/
def Block.decode (s : String) : Option Block := lookupTok s Block.table

/-- The `Language` enum of `src/lib.rs`. -/
inductive Language : Type where
  | Ar
  | Az
  | Be
  | Bs
  | Cs
  | De
  | El
  | En
  | Es
  | Fr
  | Hr
  | Hu
  | Id
  | It
  | Is
  | Kw
  | Nb
  | Nl
  | Pl
  | Pt
  | Ru
  | Sk
  | Sr
  | Sv
  | Tet
  | Tr
  | Uk
  | XPigLatin
  | Zh
  | ZhTw
deriving DecidableEq, Fintype

/-- `Language::name` from `src/lib.rs`. -/
def Language.name : Language → String
  | .Ar => "ar"
  | .Az => "az"
  | .Be => "be"
  | .Bs => "bs"
  | .Cs => "cs"
  | .De => "de"
  | .El => "el"
  | .En => "en"
  | .Es => "es"
  | .Fr => "fr"
  | .Hr => "hr"
  | .Hu => "hu"
  | .Id => "id"
  | .It => "it"
  | .Is => "is"
  | .Kw => "kw"
  | .Nb => "nb"
  | .Nl => "nl"
  | .Pl => "pl"
  | .Pt => "pt"
  | .Ru => "ru"
  | .Sk => "sk"
  | .Sr => "sr"
  | .Sv => "sv"
  | .Tet => "tet"
  | .Tr => "tr"
  | .Uk => "uk"
  | .XPigLatin => "x-pig-latin"
  | .Zh => "zh"
  | .ZhTw => "zh-tw"

/-- The serde rename table of `Language` in `src/lib.rs`. -/
def Language.table : List (Language × String) :=
  [ (.Ar, "ar")
  , (.Az, "az")
  , (.Be, "be")
  , (.Bs, "bs")
  , (.Cs, "cs")
  , (.De, "de")
  , (.El, "el")
  , (.En, "en")
  , (.Es, "es")
  , (.Fr, "fr")
  , (.Hr, "hr")
  , (.Hu, "hu")
  , (.Id, "id")
  , (.It, "it")
  , (.Is, "is")
  , (.Kw, "kw")
  , (.Nb, "nb")
  , (.Nl, "nl")
  , (.Pl, "pl")
  , (.Pt, "pt")
  , (.Ru, "ru")
  , (.Sk, "sk")
  , (.Sr, "sr")
  , (.Sv, "sv")
  , (.Tet, "tet")
  , (.Tr, "tr")
  , (.Uk, "uk")
  , (.XPigLatin, "x-pig-latin")
  , (.Zh, "zh")
  , (.ZhTw, "zh-tw")
  ]

/-- Modelled from the spec (§4.2): the decode side of the `Language` mapper
(token table from the serde rename attributes in `src/lib.rs`). -/
def Language.decode (s : String) : Option Language := lookupTok s Language.table

/-- The `Unit` enum of `src/lib.rs`. -/
inductive Unit : Type where
  | Auto
  | Ca
  | Si
  | Uk2
  | Us
deriving DecidableEq, Fintype

/-- `Unit::name` from `src/lib.rs`. -/
def Unit.name : Unit → String
  | .Auto => "auto"
  | .Ca => "ca"
  | .Si => "si"
  | .Uk2 => "uk2"
  | .Us => "us"

/-- The serde rename table of `Unit` in `src/lib.rs`. -/
def Unit.table : List (Unit × String) :=
  [ (.Auto, "auto")
  , (.Ca, "ca")
  , (.Si, "si")
  , (.Uk2, "uk2")
  , (.Us, "us")
  ]

/-- Modelled from the spec (§4.2): the decode side of the `Unit` mapper
(token table from the serde rename attributes in `src/lib.rs`). -/
def Unit.decode (s : String) : Option Unit := lookupTok s Unit.table

/-- Rust's `[&str]::join(sep)`: the elements concatenated with the separator
between consecutive elements only. -/
def rustJoin (sep : String) : List String → String
  | [] => ""
  | [x] => x
  | x :: y :: xs => x ++ sep ++ rustJoin sep (y :: xs)

/-- Insertion into the `HashMap<&str, String>` backing `Options`: any
previous binding of the key is replaced. -/
def paramInsert (m : List (String × String)) (key v : String) : List (String × String) :=
  (key, v) :: m.filter fun p => p.1 ≠ key

/-- Lookup in the parameter map backing `Options`. -/
def paramLookup : List (String × String) → String → Option String
  | [], _ => none
  | (k, v) :: rest, key => if k = key then some v else paramLookup rest key

/-- The `Options` query-parameter builder of `src/lib.rs`. -/
structure Options : Type where
  params : List (String × String)

/-- `Options::exclude` from `src/lib.rs`: joins the block names with commas
and stores the result under the `exclude` key. -/
def Options.exclude (o : Options) (blocks : List Block) : Options :=
  ⟨paramInsert o.params "exclude" (rustJoin "," (blocks.map Block.name))⟩

/-- A complete, valid `currently` object (every field `Current::decode`
requires, with the optional ones absent). -/
def currentlyMap : JMap :=
  [ ("apparentTemperature", .num (.flt (149 / 2)))
  , ("cloudCover", .num (.flt (3 / 10)))
  , ("dewPoint", .num (.int 51))
  , ("humidity", .num (.flt (4 / 5)))
  , ("icon", .str "clear-day")
  , ("ozone", .num (.int 267))
  , ("precipIntensity", .num (.int 0))
  , ("precipProbability", .num (.int 0))
  , ("pressure", .num (.int 1013))
  , ("summary", .str "Clear")
  , ("temperature", .num (.flt (145 / 2)))
  , ("time", .num (.int 1000))
  , ("windBearing", .num (.int 270))
  , ("windSpeed", .num (.flt (31 / 10)))
  ]

/-- A complete, valid hourly datapoint object, including the optional
`precipType` and `visibility` fields. -/
def hourlyDatumMap : JMap :=
  [ ("apparentTemperature", .num (.int 60))
  , ("cloudCover", .num (.int 0))
  , ("dewPoint", .num (.int 50))
  , ("humidity", .num (.flt (1 / 2)))
  , ("icon", .str "rain")
  , ("ozone", .num (.int 300))
  , ("precipIntensity", .num (.int 0))
  , ("precipProbability", .num (.int 0))
  , ("precipType", .str "rain")
  , ("pressure", .num (.int 1013))
  , ("summary", .str "Rainy")
  , ("temperature", .num (.int 59))
  , ("time", .num (.int 1000))
  , ("visibility", .num (.int 10))
  , ("windBearing", .num (.int 180))
  , ("windSpeed", .num (.int 5))
  ]

/-- A complete, valid daily datapoint object. -/
def dailyDatumMap : JMap :=
  [ ("apparentTemperatureMaxTime", .num (.int 1500))
  , ("apparentTemperatureMax", .num (.int 80))
  , ("apparentTemperatureMinTime", .num (.int 1100))
  , ("apparentTemperatureMin", .num (.int 50))
  , ("cloudCover", .num (.int 0))
  , ("dewPoint", .num (.int 50))
  , ("humidity", .num (.flt (1 / 2)))
  , ("icon", .str "rain")
  , ("moonPhase", .num (.flt (1 / 4)))
  , ("ozone", .num (.int 300))
  , ("precipIntensityMax", .num (.int 1))
  , ("precipIntensity", .num (.int 0))
  , ("precipProbability", .num (.int 0))
  , ("pressure", .num (.int 1013))
  , ("summary", .str "Rain all day")
  , ("sunriseTime", .num (.int 1200))
  , ("sunsetTime", .num (.int 1800))
  , ("temperatureMaxTime", .num (.int 1500))
  , ("temperatureMax", .num (.int 78))
  , ("temperatureMinTime", .num (.int 1100))
  , ("temperatureMin", .num (.int 48))
  , ("time", .num (.int 1000))
  , ("windBearing", .num (.int 180))
  , ("windSpeed", .num (.int 5))
  ]

/-- A valid minutely datapoint object. -/
def minutelyDatumMap : JMap :=
  [ ("precipIntensity", .num (.int 0))
  , ("precipProbability", .num (.int 0))
  , ("time", .num (.int 1000))
  ]

/-- A valid `daily` block with an empty data array. -/
def dailyMap : JMap :=
  [ ("data", .arr [])
  , ("icon", .str "rain")
  , ("summary", .str "Rain")
  ]

/-- A valid `hourly` block with an empty data array. -/
def hourlyMap : JMap :=
  [ ("data", .arr [])
  , ("icon", .str "cloudy")
  , ("summary", .str "Cloudy")
  ]

/-- A valid `minutely` block. -/
def minutelyMap : JMap :=
  [ ("data", .arr [.obj minutelyDatumMap])
  , ("icon", .str "rain")
  , ("summary", .str "Drizzle")
  ]

/-- A valid alert object. -/
def alertMap : JMap :=
  [ ("description", .str "High winds")
  , ("expires", .num (.int 2000))
  , ("title", .str "Wind advisory")
  , ("uri", .str "https://example.org/alert")
  ]

/-- A complete, valid top-level forecast document without the optional
`alerts` and `minutely` keys. -/
def fullDocMap : JMap :=
  [ ("currently", .obj currentlyMap)
  , ("daily", .obj dailyMap)
  , ("flags", .obj [])
  , ("hourly", .obj hourlyMap)
  , ("latitude", .num (.flt (189 / 5)))
  , ("longitude", .num (.flt (-612 / 5)))
  , ("offset", .num (.int (-8)))
  , ("timezone", .str "America/Los_Angeles")
  ]

/-- A complete, valid top-level forecast document that also carries the
optional `alerts` and `minutely` keys. -/
def fullDocMap2 : JMap :=
  ("alerts", .arr [.obj alertMap]) :: ("minutely", .obj minutelyMap) :: fullDocMap

/-- The minimal document of the spec's end-to-end scenario: only `latitude`,
`longitude`, `timezone` and a three-field `currently` object. -/
def minimalDocMap : JMap :=
  [ ("latitude", .num (.flt (189 / 5)))
  , ("longitude", .num (.flt (-612 / 5)))
  , ("timezone", .str "America/Los_Angeles")
  , ("currently", .obj
      [ ("time", .num (.int 1000))
      , ("temperature", .num (.flt (145 / 2)))
      , ("icon", .str "clear-day")
      ])
  ]

theorem jlookup_eraseKey_self (key : String) (m : JMap) :
    jlookup (eraseKey key m) key = none := by
  induction m with
  | nil => rfl
  | cons p rest ih =>
    by_cases h : p.1 = key
    · simp [eraseKey, h, ih]
    · simp [eraseKey, jlookup, h, ih]

theorem jlookup_eraseKey_ne (j key : String) (h : j ≠ key) (m : JMap) :
    jlookup (eraseKey j m) key = jlookup m key := by
  induction m with
  | nil => rfl
  | cons p rest ih =>
    by_cases hp : p.1 = j
    · simp [eraseKey, jlookup, hp, h, ih]
    · by_cases hk : p.1 = key
      · simp [eraseKey, jlookup, hp, hk, Ne.symm h]
      · simp [eraseKey, jlookup, hp, hk, ih]

theorem eraseKey_eraseKey (j key : String) (m : JMap) :
    eraseKey key (eraseKey j m) = eraseKey j (eraseKey key m) := by
  induction m with
  | nil => rfl
  | cons p rest ih =>
    by_cases hj : p.1 = j
    · by_cases hk : p.1 = key
      · have h2 : j = key := hj.symm.trans hk
        simp [eraseKey, hj, hk, h2, ih]
      · have h2 : ¬j = key := fun hh => hk (hj.trans hh)
        simp [eraseKey, hj, hk, h2, ih]
    · by_cases hk : p.1 = key
      · have h2 : ¬key = j := fun hh => hj (hk.trans hh)
        simp [eraseKey, hj, hk, h2, ih]
      · simp [eraseKey, hj, hk, ih]

theorem eraseKey_idem (key : String) (m : JMap) :
    eraseKey key (eraseKey key m) = eraseKey key m := by
  induction m with
  | nil => rfl
  | cons p rest ih =>
    by_cases h : p.1 = key <;> simp [eraseKey, h, ih]

/-- A map transformation that neither disturbs the binding of `key` nor
fails to commute with erasing `key`. -/
def KP (σ : JMap → JMap) (key : String) : Prop :=
  (∀ m, jlookup (σ m) key = jlookup m key) ∧
  (∀ m, eraseKey key (σ m) = σ (eraseKey key m))

theorem KP_cons (j : String) (v : Value) (key : String) (h : j ≠ key) :
    KP (fun m => (j, v) :: m) key := by
  constructor
  · intro m
    simp [jlookup, h]
  · intro m
    simp [eraseKey, h]

theorem KP_erase (j key : String) (h : j ≠ key) : KP (eraseKey j) key := by
  constructor
  · intro m
    exact jlookup_eraseKey_ne j key h m
  · intro m
    exact eraseKey_eraseKey j key m

theorem KP_comp {σ τ : JMap → JMap} {key : String}
    (hσ : KP σ key) (hτ : KP τ key) : KP (fun m => σ (τ m)) key := by
  constructor
  · intro m
    rw [hσ.1, hτ.1]
  · intro m
    rw [hσ.2, hτ.2]

/-- A decode step commutes with every transformation that preserves the keys
it touches: running it on the transformed map gives the same result with the
transformation applied to the residual map. -/
def Transp (f : Dec α) (ks : List String) : Prop :=
  ∀ σ, (∀ k ∈ ks, KP σ k) → ∀ m,
    f.run (σ m) = (f.run m).map fun p => (p.1, σ p.2)

theorem transp_pure (a : α) (ks : List String) : Transp (pure a : Dec α) ks := by
  intro σ _ m
  rfl

theorem run_bind (f : Dec α) (g : α → Dec β) (m : JMap) :
    (f >>= g).run m = (f.run m).bind fun p => (g p.1).run p.2 := rfl

theorem transp_bind {f : Dec α} {g : α → Dec β} {ks : List String}
    (hf : Transp f ks) (hg : ∀ a, Transp (g a) ks) : Transp (f >>= g) ks := by
  intro σ hσ m
  rw [run_bind, run_bind, hf σ hσ m]
  cases hp : f.run m with
  | error e => rfl
  | ok p =>
    show (g p.1).run (σ p.2) = _
    rw [hg p.1 σ hσ p.2]
    rfl

theorem remove_run (key : String) (m : JMap) :
    (remove key).run m =
      match jlookup m key with
      | some v => .ok (v, eraseKey key m)
      | none => .error (.Missing key) := rfl

theorem req_u64_run (key : String) (m : JMap) :
    (req_u64 key).run m =
      match (remove key).run m with
      | .error e => .error e
      | .ok (v, m1) =>
        match v.as_u64 with
        | some n => .ok (n, m1)
        | none => .error (.TypeMismatch key "u64" v) := rfl

theorem req_f64_run (key : String) (m : JMap) :
    (req_f64 key).run m =
      match (remove key).run m with
      | .error e => .error e
      | .ok (v, m1) =>
        match v.as_f64 with
        | some q => .ok (q, m1)
        | none => .error (.TypeMismatch key "f64" v) := rfl

theorem req_str_run (key : String) (m : JMap) :
    (req_str key).run m =
      match (remove key).run m with
      | .error e => .error e
      | .ok (v, m1) =>
        match into_string v with
        | .ok s => .ok (s, m1)
        | .error e => .error e := rfl

theorem req_with_run (key : String) (d : Value → Except DecodeError α) (m : JMap) :
    (req_with key d).run m =
      match (remove key).run m with
      | .error e => .error e
      | .ok (v, m1) =>
        match d v with
        | .ok a => .ok (a, m1)
        | .error e => .error e := rfl

theorem opt_run (key : String) (d : Value → Except DecodeError α) (m : JMap) :
    (opt key d).run m =
      match jlookup m key with
      | none => .ok (none, m)
      | some v =>
        match d v with
        | .ok a => .ok (some a, eraseKey key m)
        | .error e => .error e := rfl

theorem optCoerce_run (key : String) (coe : Value → Option α) (m : JMap) :
    (optCoerce key coe).run m =
      match jlookup m key with
      | none => .ok (none, m)
      | some v => .ok (coe v, eraseKey key m) := rfl

theorem transp_remove {ks : List String} (key : String) (hk : key ∈ ks) :
    Transp (remove key) ks := by
  intro σ hσ m
  obtain ⟨hl, he⟩ := hσ key hk
  rw [remove_run, remove_run, hl]
  cases jlookup m key with
  | none => rfl
  | some v => simp [Except.map, he]

theorem transp_req_u64 {ks : List String} (key : String) (hk : key ∈ ks) :
    Transp (req_u64 key) ks := by
  intro σ hσ m
  have hr := transp_remove key hk σ hσ m
  rw [req_u64_run, req_u64_run, hr]
  cases (remove key).run m with
  | error e => rfl
  | ok p =>
    obtain ⟨v, m1⟩ := p
    cases hu : v.as_u64 <;> simp [Except.map, hu]

theorem transp_req_f64 {ks : List String} (key : String) (hk : key ∈ ks) :
    Transp (req_f64 key) ks := by
  intro σ hσ m
  have hr := transp_remove key hk σ hσ m
  rw [req_f64_run, req_f64_run, hr]
  cases (remove key).run m with
  | error e => rfl
  | ok p =>
    obtain ⟨v, m1⟩ := p
    cases hu : v.as_f64 <;> simp [Except.map, hu]

theorem transp_req_str {ks : List String} (key : String) (hk : key ∈ ks) :
    Transp (req_str key) ks := by
  intro σ hσ m
  have hr := transp_remove key hk σ hσ m
  rw [req_str_run, req_str_run, hr]
  cases (remove key).run m with
  | error e => rfl
  | ok p =>
    obtain ⟨v, m1⟩ := p
    cases hs : into_string v <;> simp [Except.map, hs]

theorem transp_req_with {ks : List String} (key : String)
    (d : Value → Except DecodeError α) (hk : key ∈ ks) :
    Transp (req_with key d) ks := by
  intro σ hσ m
  have hr := transp_remove key hk σ hσ m
  rw [req_with_run, req_with_run, hr]
  cases (remove key).run m with
  | error e => rfl
  | ok p =>
    obtain ⟨v, m1⟩ := p
    cases hd : d v <;> simp [Except.map, hd]

theorem transp_opt {ks : List String} (key : String)
    (d : Value → Except DecodeError α) (hk : key ∈ ks) :
    Transp (opt key d) ks := by
  intro σ hσ m
  obtain ⟨hl, he⟩ := hσ key hk
  rw [opt_run, opt_run, hl]
  cases jlookup m key with
  | none => rfl
  | some v => cases hd : d v <;> simp [Except.map, hd, he]

theorem transp_optCoerce {ks : List String} (key : String)
    (coe : Value → Option α) (hk : key ∈ ks) :
    Transp (optCoerce key coe) ks := by
  intro σ hσ m
  obtain ⟨hl, he⟩ := hσ key hk
  rw [optCoerce_run, optCoerce_run, hl]
  cases jlookup m key with
  | none => rfl
  | some v => simp [Except.map, he]

theorem isOk_map (e : Except DecodeError α) (f : α → β) :
    isOk (e.map f) = isOk e := by
  cases e <;> rfl

/-- The field names `Alert::decode` extracts. -/
def Alert.keys : List String := ["description", "expires", "title", "uri"]

/-- The field names `Current::decode` extracts. -/
def Current.keys : List String :=
  [ "apparentTemperature", "cloudCover", "dewPoint", "humidity", "icon"
  , "nearestStormBearing", "nearestStormDistance", "ozone", "precipIntensity"
  , "precipProbability", "pressure", "summary", "temperature", "time"
  , "visibility", "windBearing", "windSpeed" ]

/-- The field names `Daily::decode`, `Hourly::decode` and `Minutely::decode`
extract. -/
def datablockKeys : List String := ["data", "icon", "summary"]

/-- The field names `DailyData::decode` extracts. -/
def DailyData.keys : List String :=
  [ "apparentTemperatureMaxTime", "apparentTemperatureMax"
  , "apparentTemperatureMinTime", "apparentTemperatureMin", "cloudCover"
  , "dewPoint", "humidity", "icon", "moonPhase", "ozone", "precipIntensityMax"
  , "precipIntensity", "precipProbability", "precipType", "pressure"
  , "summary", "sunriseTime", "sunsetTime", "temperatureMaxTime"
  , "temperatureMax", "temperatureMinTime", "temperatureMin", "time"
  , "visibility", "windBearing", "windSpeed" ]

/-- The field names `Flags::decode` extracts. -/
def Flags.keys : List String :=
  [ "darksky-stations", "darksky-unavailable", "datapoint-stations"
  , "isd-stations", "lamp-stations", "metar-stations", "metno-license"
  , "sources", "units" ]

/-- The field names `HourlyData::decode` extracts. -/
def HourlyData.keys : List String :=
  [ "apparentTemperature", "cloudCover", "dewPoint", "humidity", "icon"
  , "ozone", "precipIntensity", "precipProbability", "precipType", "pressure"
  , "summary", "temperature", "time", "visibility", "windBearing"
  , "windSpeed" ]

/-- The field names `MinutelyData::decode` extracts. -/
def MinutelyData.keys : List String :=
  ["precipIntensity", "precipProbability", "time"]

/-- The field names `Forecast::decode` extracts. -/
def Forecast.keys : List String :=
  [ "alerts", "currently", "daily", "flags", "hourly", "latitude"
  , "longitude", "minutely", "offset", "timezone" ]

theorem alert_transp : Transp Alert.decodeM Alert.keys := by
  unfold Alert.decodeM
  repeat
    first
    | exact transp_pure _ _
    | refine transp_bind ?_ fun a => ?_
    | exact transp_req_u64 _ (by decide)
    | exact transp_req_f64 _ (by decide)
    | exact transp_req_str _ (by decide)
    | exact transp_req_with _ _ (by decide)
    | exact transp_opt _ _ (by decide)
    | exact transp_optCoerce _ _ (by decide)

theorem current_transp : Transp Current.decodeM Current.keys := by
  unfold Current.decodeM
  repeat
    first
    | exact transp_pure _ _
    | refine transp_bind ?_ fun a => ?_
    | exact transp_req_u64 _ (by decide)
    | exact transp_req_f64 _ (by decide)
    | exact transp_req_str _ (by decide)
    | exact transp_req_with _ _ (by decide)
    | exact transp_opt _ _ (by decide)
    | exact transp_optCoerce _ _ (by decide)

theorem daily_transp : Transp Daily.decodeM datablockKeys := by
  unfold Daily.decodeM
  repeat
    first
    | exact transp_pure _ _
    | refine transp_bind ?_ fun a => ?_
    | exact transp_req_u64 _ (by decide)
    | exact transp_req_f64 _ (by decide)
    | exact transp_req_str _ (by decide)
    | exact transp_req_with _ _ (by decide)
    | exact transp_opt _ _ (by decide)
    | exact transp_optCoerce _ _ (by decide)

theorem dailyData_transp : Transp DailyData.decodeM DailyData.keys := by
  unfold DailyData.decodeM
  repeat
    first
    | exact transp_pure _ _
    | refine transp_bind ?_ fun a => ?_
    | exact transp_req_u64 _ (by decide)
    | exact transp_req_f64 _ (by decide)
    | exact transp_req_str _ (by decide)
    | exact transp_req_with _ _ (by decide)
    | exact transp_opt _ _ (by decide)
    | exact transp_optCoerce _ _ (by decide)

theorem flags_transp : Transp Flags.decodeM Flags.keys := by
  unfold Flags.decodeM
  repeat
    first
    | exact transp_pure _ _
    | refine transp_bind ?_ fun a => ?_
    | exact transp_req_u64 _ (by decide)
    | exact transp_req_f64 _ (by decide)
    | exact transp_req_str _ (by decide)
    | exact transp_req_with _ _ (by decide)
    | exact transp_opt _ _ (by decide)
    | exact transp_optCoerce _ _ (by decide)

theorem hourly_transp : Transp Hourly.decodeM datablockKeys := by
  unfold Hourly.decodeM
  repeat
    first
    | exact transp_pure _ _
    | refine transp_bind ?_ fun a => ?_
    | exact transp_req_u64 _ (by decide)
    | exact transp_req_f64 _ (by decide)
    | exact transp_req_str _ (by decide)
    | exact transp_req_with _ _ (by decide)
    | exact transp_opt _ _ (by decide)
    | exact transp_optCoerce _ _ (by decide)

theorem hourlyData_transp : Transp HourlyData.decodeM HourlyData.keys := by
  unfold HourlyData.decodeM
  repeat
    first
    | exact transp_pure _ _
    | refine transp_bind ?_ fun a => ?_
    | exact transp_req_u64 _ (by decide)
    | exact transp_req_f64 _ (by decide)
    | exact transp_req_str _ (by decide)
    | exact transp_req_with _ _ (by decide)
    | exact transp_opt _ _ (by decide)
    | exact transp_optCoerce _ _ (by decide)

theorem minutely_transp : Transp Minutely.decodeM datablockKeys := by
  unfold Minutely.decodeM
  repeat
    first
    | exact transp_pure _ _
    | refine transp_bind ?_ fun a => ?_
    | exact transp_req_u64 _ (by decide)
    | exact transp_req_f64 _ (by decide)
    | exact transp_req_str _ (by decide)
    | exact transp_req_with _ _ (by decide)
    | exact transp_opt _ _ (by decide)
    | exact transp_optCoerce _ _ (by decide)

theorem minutelyData_transp : Transp MinutelyData.decodeM MinutelyData.keys := by
  unfold MinutelyData.decodeM
  repeat
    first
    | exact transp_pure _ _
    | refine transp_bind ?_ fun a => ?_
    | exact transp_req_u64 _ (by decide)
    | exact transp_req_f64 _ (by decide)
    | exact transp_req_str _ (by decide)
    | exact transp_req_with _ _ (by decide)
    | exact transp_opt _ _ (by decide)
    | exact transp_optCoerce _ _ (by decide)

theorem forecast_transp : Transp Forecast.decodeM Forecast.keys := by
  unfold Forecast.decodeM
  repeat
    first
    | exact transp_pure _ _
    | refine transp_bind ?_ fun a => ?_
    | exact transp_req_u64 _ (by decide)
    | exact transp_req_f64 _ (by decide)
    | exact transp_req_str _ (by decide)
    | exact transp_req_with _ _ (by decide)
    | exact transp_opt _ _ (by decide)
    | exact transp_optCoerce _ _ (by decide)

/-- The generic fact behind claim C10: a decoder whose step chain commutes
with key-preserving map transformations ignores a consed-on extra field whose
name it does not extract. -/
theorem run_cons_irrelevant {dm : Dec α} {ks : List String}
    (ht : Transp dm ks) (k : String) (v : Value) (m : JMap) (hk : k ∉ ks) :
    (dm.run ((k, v) :: m)).map (fun p => p.1) = (dm.run m).map (fun p => p.1) := by
  have h := ht (fun m => (k, v) :: m)
    (fun k2 hk2 => KP_cons k v k2 (fun hh => hk (hh ▸ hk2))) m
  rw [h]
  cases dm.run m <;> rfl

theorem lookupTok_none {α : Type} (s : String) (l : List (α × String))
    (h : s ∉ l.map Prod.snd) : lookupTok s l = none := by
  induction l with
  | nil => rfl
  | cons p rest ih =>
    have h1 : ¬s = p.2 := fun hh => h (by simp [hh])
    have h2 : s ∉ rest.map Prod.snd := fun hh => h (by simp [hh])
    obtain ⟨a, t⟩ := p
    simp only [lookupTok, if_neg h1]
    exact ih h2

theorem intercalate_go_eq (sep : String) (as : List String) :
    ∀ acc, String.intercalate.go acc sep as = rustJoin sep (acc :: as) := by
  induction as with
  | nil =>
    intro acc
    rfl
  | cons a as ih =>
    intro acc
    rw [show String.intercalate.go acc sep (a :: as)
        = String.intercalate.go (acc ++ sep ++ a) sep as from rfl, ih]
    cases as with
    | nil => simp [rustJoin, String.append_assoc]
    | cons b bs => simp [rustJoin, String.append_assoc]

theorem rustJoin_eq_intercalate (sep : String) (l : List String) :
    rustJoin sep l = String.intercalate sep l := by
  cases l with
  | nil => rfl
  | cons a as => rw [show String.intercalate sep (a :: as)
      = String.intercalate.go a sep as from rfl, intercalate_go_eq]

theorem paramLookup_paramInsert (m : List (String × String)) (key v : String) :
    paramLookup (paramInsert m key v) key = some v := by
  simp [paramInsert, paramLookup]

/-- C3: for every variant of each closed enum type — `Icon`,
`PrecipitationType`, and the request-side `Block`, `Language` and `Unit`
enums — decoding the token produced by encoding the variant yields the
variant back, and the encoding is injective: no two distinct variants of the
same enum share a token string. -/
theorem c3_enum_roundtrip_injective :
    ((∀ i : Icon, Icon.decode (.str (Icon.name i)) = .ok i)
      ∧ ∀ a b : Icon, Icon.name a = Icon.name b → a = b)
    ∧ ((∀ p : PrecipitationType,
          PrecipitationType.decode (.str (PrecipitationType.name p)) = .ok p)
      ∧ ∀ a b : PrecipitationType,
          PrecipitationType.name a = PrecipitationType.name b → a = b)
    ∧ ((∀ x : Block, Block.decode (Block.name x) = some x)
      ∧ ∀ a b : Block, Block.name a = Block.name b → a = b)
    ∧ ((∀ x : Language, Language.decode (Language.name x) = some x)
      ∧ ∀ a b : Language, Language.name a = Language.name b → a = b)
    ∧ ((∀ x : Unit, Unit.decode (Unit.name x) = some x)
      ∧ ∀ a b : Unit, Unit.name a = Unit.name b → a = b) := by
  have hIcon : ∀ i : Icon, Icon.decode (.str (Icon.name i)) = .ok i := by
    intro i
    cases i <;> rfl
  have hPre : ∀ p : PrecipitationType,
      PrecipitationType.decode (.str (PrecipitationType.name p)) = .ok p := by
    intro p
    cases p <;> rfl
  have hBlock : ∀ x : Block, Block.decode (Block.name x) = some x := by
    intro x
    cases x <;> rfl
  have hLang : ∀ x : Language, Language.decode (Language.name x) = some x := by
    intro x
    cases x <;> rfl
  have hUnit : ∀ x : Unit, Unit.decode (Unit.name x) = some x := by
    intro x
    cases x <;> rfl
  refine ⟨⟨hIcon, ?_⟩, ⟨hPre, ?_⟩, ⟨hBlock, ?_⟩, ⟨hLang, ?_⟩, ⟨hUnit, ?_⟩⟩
  · intro a b h
    have ha := hIcon a
    rw [h, hIcon b] at ha
    exact (Except.ok.inj ha).symm
  · intro a b h
    have ha := hPre a
    rw [h, hPre b] at ha
    exact (Except.ok.inj ha).symm
  · intro a b h
    have ha := hBlock a
    rw [h, hBlock b] at ha
    exact (Option.some.inj ha).symm
  · intro a b h
    have ha := hLang a
    rw [h, hLang b] at ha
    exact (Option.some.inj ha).symm
  · intro a b h
    have ha := hUnit a
    rw [h, hUnit b] at ha
    exact (Option.some.inj ha).symm

/-- Witness for C3 at concrete variants. -/
theorem c3_witness :
    Icon.decode (.str (Icon.name Icon.Snow)) = .ok Icon.Snow
      ∧ Language.Kw = Language.Kw :=
  ⟨c3_enum_roundtrip_injective.1.1 Icon.Snow,
    c3_enum_roundtrip_injective.2.2.2.1.2 Language.Kw Language.Kw rfl⟩

/-- C6: decoding a JSON string that is not exactly one of the known enum
tokens fails with a type-mismatch error carrying the offending string
verbatim, and every known token decodes to its variant (shown for the
`map_names!` enums `Icon` and `PrecipitationType`). -/
theorem c6_unknown_token_rejected :
    (∀ s : String, s ∉ Icon.table.map Prod.snd →
      Icon.decode (.str s) = .error (.TypeMismatch "Icon" iconExpected (.str s)))
    ∧ (∀ p ∈ Icon.table, Icon.decode (.str p.2) = .ok p.1)
    ∧ (∀ s : String, s ∉ PrecipitationType.table.map Prod.snd →
      PrecipitationType.decode (.str s)
        = .error (.TypeMismatch "PrecipitationType" precipExpected (.str s)))
    ∧ (∀ p ∈ PrecipitationType.table,
      PrecipitationType.decode (.str p.2) = .ok p.1) := by
  refine ⟨?_, ?_, ?_, ?_⟩
  · intro s h
    have hd : Icon.decode (.str s)
        = match lookupTok s Icon.table with
          | some i => .ok i
          | none => .error (.TypeMismatch "Icon" iconExpected (.str s)) := rfl
    rw [hd, lookupTok_none s Icon.table h]
  · intro p hp
    fin_cases hp <;> rfl
  · intro s h
    have hd : PrecipitationType.decode (.str s)
        = match lookupTok s PrecipitationType.table with
          | some p => .ok p
          | none => .error
              (.TypeMismatch "PrecipitationType" precipExpected (.str s)) := rfl
    rw [hd, lookupTok_none s PrecipitationType.table h]
  · intro p hp
    fin_cases hp <;> rfl

/-- Witness for C6: the spec's `lunar-eclipse` example is rejected verbatim,
and the known token `fog` decodes. -/
theorem c6_witness :
    Icon.decode (.str "lunar-eclipse")
      = .error (.TypeMismatch "Icon" iconExpected (.str "lunar-eclipse"))
      ∧ Icon.decode (.str "fog") = .ok Icon.Fog :=
  ⟨c6_unknown_token_rejected.1 "lunar-eclipse" (by decide),
    c6_unknown_token_rejected.2.1 (Icon.Fog, "fog") (by decide)⟩

/-- C9: for every prior options state and list of blocks, the value stored
under the `exclude` query parameter is exactly the blocks' API names joined
by commas in the given order, with no leading or trailing separator
(`String.intercalate` is the independent specification of that joining). -/
theorem c9_exclude_joins_names (o : Options) (blocks : List Block) :
    paramLookup (Options.exclude o blocks).params "exclude"
      = some (String.intercalate "," (blocks.map Block.name)) := by
  unfold Options.exclude
  rw [paramLookup_paramInsert, rustJoin_eq_intercalate]

theorem decode_elems_first_error {α : Type} (d : Value → Except DecodeError α)
    (l1 : List Value) (x : Value) (l2 : List Value) (e : DecodeError)
    (h1 : ∀ y ∈ l1, isOk (d y) = true) (hx : d x = .error e) :
    decode_elems d (l1 ++ x :: l2) = .error e := by
  induction l1 with
  | nil => simp [decode_elems, hx]
  | cons a as ih =>
    have ha : isOk (d a) = true := h1 a (by simp)
    cases hda : d a with
    | error e2 =>
      rw [hda] at ha
      exact absurd ha (by simp [isOk])
    | ok b =>
      show decode_elems d (a :: (as ++ x :: l2)) = .error e
      have hrec := ih fun y hy => h1 y (by simp [hy])
      simp only [decode_elems, hda, hrec]

theorem decode_elems_ok_map {α : Type} (d : Value → Except DecodeError α)
    (l : List Value) (res : List α) (h : decode_elems d l = .ok res) :
    l.map d = res.map Except.ok := by
  induction l generalizing res with
  | nil =>
    simp only [decode_elems] at h
    rw [← Except.ok.inj h]
    rfl
  | cons a as ih =>
    simp only [decode_elems] at h
    cases hda : d a with
    | error e =>
      rw [hda] at h
      exact Except.noConfusion h
    | ok b =>
      rw [hda] at h
      cases hrest : decode_elems d as with
      | error e =>
        rw [hrest] at h
        exact Except.noConfusion h
      | ok bs =>
        rw [hrest] at h
        rw [← Except.ok.inj h]
        simp [hda, ih bs hrest]

/-- A `daily` block whose data array has a malformed second element. -/
def dailyBadMap : JMap :=
  [ ("data", .arr [.obj dailyDatumMap, .num (.int 0), .obj dailyDatumMap])
  , ("icon", .str "rain")
  , ("summary", .str "Rain")
  ]

/-- C5: decoding an array short-circuits on the first failing element,
returning exactly that element's error unchanged; when every element
succeeds, the output sequence reproduces the input, element for element, in
the same order and length.  The third conjunct instances this on a
`daily.data` array whose second of three datapoints is malformed. -/
theorem c5_array_short_circuit :
    (∀ (α : Type) (d : Value → Except DecodeError α) (l1 : List Value)
        (x : Value) (l2 : List Value) (e : DecodeError),
        (∀ y ∈ l1, isOk (d y) = true) → d x = .error e →
        decode_array (.arr (l1 ++ x :: l2)) d = .error e)
    ∧ (∀ (α : Type) (d : Value → Except DecodeError α) (l : List Value)
        (res : List α), decode_array (.arr l) d = .ok res →
        l.map d = res.map Except.ok)
    ∧ Daily.decode (.obj dailyBadMap)
        = .error (.TypeMismatch "into_map" "object" (.num (.int 0))) := by
  refine ⟨?_, ?_, rfl⟩
  · intro α d l1 x l2 e h1 hx
    exact decode_elems_first_error d l1 x l2 e h1 hx
  · intro α d l res h
    exact decode_elems_ok_map d l res h

/-- Witness for C5 on the concrete three-element `daily.data` array. -/
theorem c5_witness :
    decode_array (.arr [.obj dailyDatumMap, .num (.int 0), .obj dailyDatumMap])
        DailyData.decode
      = .error (.TypeMismatch "into_map" "object" (.num (.int 0))) :=
  c5_array_short_circuit.1 DailyData DailyData.decode [.obj dailyDatumMap]
    (.num (.int 0)) [.obj dailyDatumMap]
    (.TypeMismatch "into_map" "object" (.num (.int 0)))
    (by
      intro y hy
      rw [List.mem_singleton.mp hy]
      decide)
    rfl

/-- A minutely datapoint whose `time` field holds a string. -/
def minutelyBadTimeMap : JMap :=
  [ ("precipIntensity", .num (.int 0))
  , ("precipProbability", .num (.int 0))
  , ("time", .str "not-a-number")
  ]

/-- A minutely datapoint whose `time` field holds a fractional number. -/
def minutelyFracTimeMap : JMap :=
  [ ("precipIntensity", .num (.int 0))
  , ("precipProbability", .num (.int 0))
  , ("time", .num (.flt (5 / 2)))
  ]

/-- C7: extracting an integer field from a value that is not a JSON number
representable as an unsigned 64-bit integer fails with a type-mismatch error
naming the field and carrying the offending value; strings and fractional
numbers never coerce (no silent truncation).  The last two conjuncts instance
this on a datapoint's `time` field. -/
theorem c7_integer_mismatch :
    (∀ (key : String) (m : JMap) (v : Value), jlookup m key = some v →
      v.as_u64 = none →
      (req_u64 key).run m = .error (.TypeMismatch key "u64" v))
    ∧ (∀ s : String, (Value.str s).as_u64 = none)
    ∧ (∀ q : Rat, (Value.num (.flt q)).as_u64 = none)
    ∧ MinutelyData.decode (.obj minutelyBadTimeMap)
        = .error (.TypeMismatch "time" "u64" (.str "not-a-number"))
    ∧ MinutelyData.decode (.obj minutelyFracTimeMap)
        = .error (.TypeMismatch "time" "u64" (.num (.flt (5 / 2)))) := by
  refine ⟨?_, fun s => rfl, fun q => rfl, rfl, rfl⟩
  intro key m v hl hu
  rw [req_u64_run, remove_run, hl]
  simp [hu]

/-- Witness for C7 at a concrete map with a string where `time` should be. -/
theorem c7_witness :
    (req_u64 "time").run [("time", .str "x")]
      = .error (.TypeMismatch "time" "u64" (.str "x")) :=
  c7_integer_mismatch.1 "time" [("time", .str "x")] (.str "x") rfl rfl

/-- C8 (amended): for `opt`-style optional extraction (take_optional),
absence yields `None` and a present-but-undecodable value fails with the
decoder's error; but the `remove(..).ok().and_then(as_*)` optional fields of
`src/models.rs` (`visibility`, `nearestStormBearing`,
`nearestStormDistance`) silently yield `None` when the present value fails
to coerce, rather than failing. -/
theorem c8_optional_field_semantics :
    (∀ (α : Type) (key : String) (d : Value → Except DecodeError α) (m : JMap),
      jlookup m key = none → (opt key d).run m = .ok (none, m))
    ∧ (∀ (α : Type) (key : String) (d : Value → Except DecodeError α) (m : JMap)
        (v : Value) (e : DecodeError), jlookup m key = some v → d v = .error e →
        (opt key d).run m = .error e)
    ∧ (∀ (α : Type) (key : String) (coe : Value → Option α) (m : JMap) (v : Value),
        jlookup m key = some v → coe v = none →
        (optCoerce key coe).run m = .ok (none, eraseKey key m))
    ∧ (Current.decode (.obj (("visibility", .str "foo") :: currentlyMap))).map
        (fun c => c.visibility) = .ok none
    ∧ HourlyData.decode
        (.obj (("precipType", .str "hmm") :: eraseKey "precipType" hourlyDatumMap))
      = .error (.TypeMismatch "PrecipitationType" precipExpected (.str "hmm")) := by
  refine ⟨?_, ?_, ?_, rfl, rfl⟩
  · intro α key d m hl
    rw [opt_run, hl]
  · intro α key d m v e hl hd
    rw [opt_run, hl]
    simp [hd]
  · intro α key coe m v hl hc
    rw [optCoerce_run, hl]
    simp [hc]

/-- Witness for C8 at concrete maps for each of the three general parts. -/
theorem c8_witness :
    (opt "x" into_string).run [] = .ok (none, [])
      ∧ (opt "icon" Icon.decode).run [("icon", .null)]
          = .error (.TypeMismatch "Icon" iconExpected .null)
      ∧ (optCoerce "visibility" Value.as_f64).run [("visibility", .str "foo")]
          = .ok (none, []) :=
  ⟨c8_optional_field_semantics.1 String "x" into_string [] rfl,
    c8_optional_field_semantics.2.1 Icon "icon" Icon.decode [("icon", .null)]
      .null (.TypeMismatch "Icon" iconExpected .null) rfl rfl,
    c8_optional_field_semantics.2.2.1 Rat "visibility" Value.as_f64
      [("visibility", .str "foo")] (.str "foo") rfl rfl⟩

/-- C8 counterexample: a `Current` object whose `visibility` field is a
string decodes successfully with `visibility = None` — a present
non-numeric value for this field does not raise a type mismatch, contrary to
the claim. -/
theorem c8_counterexample :
    (Current.decode (.obj (("visibility", .str "foo") :: currentlyMap))).map
      (fun c => (c.visibility, c.time)) = .ok (none, 1000) := rfl

/-- C2 counterexample: an hourly datapoint object with every field present
and well-typed except `humidity` fails to decode with `Missing("humidity")`
— `time` is not the only required datapoint field. -/
theorem c2_counterexample :
    HourlyData.decode (.obj (eraseKey "humidity" hourlyDatumMap))
      = .error (.Missing "humidity") := rfl

/-- C2 (amended): in this version of the model, a datapoint's `time` is
required but so are most other fields (`humidity` among them: its absence is
`Missing("humidity")`); only the `Option`-typed fields (`precipType`,
`visibility`, and in `Current` the nearest-storm fields) may be absent, in
which case decode succeeds with `None` there while the present well-typed
fields populate normally. -/
theorem c2_time_not_only_required :
    HourlyData.decode (.obj (eraseKey "humidity" hourlyDatumMap))
        = .error (.Missing "humidity")
    ∧ (HourlyData.decode
          (.obj (eraseKey "precipType" (eraseKey "visibility" hourlyDatumMap)))).map
        (fun d => (d.precip_type, d.visibility, d.time, d.temperature, d.icon,
          d.humidity))
      = .ok (none, none, 1000, 59, Icon.Rain, (1 : Rat) / 2)
    ∧ (Current.decode (.obj currentlyMap)).map
        (fun c => (c.visibility, c.nearest_storm_bearing,
          c.nearest_storm_distance, c.time, c.humidity))
      = .ok (none, none, none, 1000, (4 : Rat) / 5) := ⟨rfl, rfl, rfl⟩

/-- C10: every entity decoder ignores unrecognized keys — consing an extra
field whose name the decoder does not extract onto the object leaves the
decode result unchanged (hence a successful decode stays successful and
produces an identical entity). -/
theorem c10_unknown_keys_ignored :
    (∀ (k : String) (v : Value) (m : JMap), k ∉ Alert.keys →
      Alert.decode (.obj ((k, v) :: m)) = Alert.decode (.obj m))
    ∧ (∀ (k : String) (v : Value) (m : JMap), k ∉ Current.keys →
      Current.decode (.obj ((k, v) :: m)) = Current.decode (.obj m))
    ∧ (∀ (k : String) (v : Value) (m : JMap), k ∉ datablockKeys →
      Daily.decode (.obj ((k, v) :: m)) = Daily.decode (.obj m))
    ∧ (∀ (k : String) (v : Value) (m : JMap), k ∉ DailyData.keys →
      DailyData.decode (.obj ((k, v) :: m)) = DailyData.decode (.obj m))
    ∧ (∀ (k : String) (v : Value) (m : JMap), k ∉ Flags.keys →
      Flags.decode (.obj ((k, v) :: m)) = Flags.decode (.obj m))
    ∧ (∀ (k : String) (v : Value) (m : JMap), k ∉ Forecast.keys →
      Forecast.decode (.obj ((k, v) :: m)) = Forecast.decode (.obj m))
    ∧ (∀ (k : String) (v : Value) (m : JMap), k ∉ datablockKeys →
      Hourly.decode (.obj ((k, v) :: m)) = Hourly.decode (.obj m))
    ∧ (∀ (k : String) (v : Value) (m : JMap), k ∉ HourlyData.keys →
      HourlyData.decode (.obj ((k, v) :: m)) = HourlyData.decode (.obj m))
    ∧ (∀ (k : String) (v : Value) (m : JMap), k ∉ datablockKeys →
      Minutely.decode (.obj ((k, v) :: m)) = Minutely.decode (.obj m))
    ∧ (∀ (k : String) (v : Value) (m : JMap), k ∉ MinutelyData.keys →
      MinutelyData.decode (.obj ((k, v) :: m)) = MinutelyData.decode (.obj m)) := by
  refine ⟨?_, ?_, ?_, ?_, ?_, ?_, ?_, ?_, ?_, ?_⟩
  · intro k v m hk
    exact run_cons_irrelevant alert_transp k v m hk
  · intro k v m hk
    exact run_cons_irrelevant current_transp k v m hk
  · intro k v m hk
    exact run_cons_irrelevant daily_transp k v m hk
  · intro k v m hk
    exact run_cons_irrelevant dailyData_transp k v m hk
  · intro k v m hk
    exact run_cons_irrelevant flags_transp k v m hk
  · intro k v m hk
    exact run_cons_irrelevant forecast_transp k v m hk
  · intro k v m hk
    exact run_cons_irrelevant hourly_transp k v m hk
  · intro k v m hk
    exact run_cons_irrelevant hourlyData_transp k v m hk
  · intro k v m hk
    exact run_cons_irrelevant minutely_transp k v m hk
  · intro k v m hk
    exact run_cons_irrelevant minutelyData_transp k v m hk

/-- Witness for C10 at a concrete extra key on concrete objects. -/
theorem c10_witness :
    Alert.decode (.obj (("zzz", .null) :: alertMap)) = Alert.decode (.obj alertMap)
      ∧ Forecast.decode (.obj (("zzz", .null) :: fullDocMap))
          = Forecast.decode (.obj fullDocMap)
      ∧ MinutelyData.decode (.obj (("zzz", .null) :: minutelyDatumMap))
          = MinutelyData.decode (.obj minutelyDatumMap) :=
  ⟨c10_unknown_keys_ignored.1 "zzz" .null alertMap (by decide),
    c10_unknown_keys_ignored.2.2.2.2.2.1 "zzz" .null fullDocMap (by decide),
    c10_unknown_keys_ignored.2.2.2.2.2.2.2.2.2 "zzz" .null minutelyDatumMap
      (by decide)⟩

theorem bind_ok (a : α) (f : α → Except DecodeError β) :
    (Except.ok a).bind f = f a := rfl

theorem bind_error (e : DecodeError) (f : α → Except DecodeError β) :
    (Except.error e).bind f = (.error e : Except DecodeError β) := rfl

theorem opt_absent {α : Type} (key : String) (d : Value → Except DecodeError α)
    (m : JMap) (h : jlookup m key = none) : (opt key d).run m = .ok (none, m) := by
  rw [opt_run, h]

theorem req_f64_absent (key : String) (m : JMap) (h : jlookup m key = none) :
    (req_f64 key).run m = .error (.Missing key) := by
  rw [req_f64_run, remove_run, h]

/-- The residual map of a successful `opt` is either the input map or the
input map with the key erased, so any transformation collapsing the two
agrees on it. -/
theorem opt_ok_state {α : Type} (key : String) (d : Value → Except DecodeError α)
    (m : JMap) (p : Option α × JMap) (h : (opt key d).run m = .ok p)
    (σ : JMap → JMap) (hstate : σ (eraseKey key m) = σ m) : σ p.2 = σ m := by
  cases hl : jlookup m key with
  | none =>
    rw [opt_absent key d m hl] at h
    rw [← Except.ok.inj h]
  | some v =>
    cases hd : d v with
    | error e =>
      have h2 : (opt key d).run m = .error e := by
        rw [opt_run, hl]
        simp [hd]
      rw [h2] at h
      exact Except.noConfusion h
    | ok a =>
      have h2 : (opt key d).run m = .ok (some a, eraseKey key m) := by
        rw [opt_run, hl]
        simp [hd]
      rw [h2] at h
      rw [← Except.ok.inj h]
      exact hstate

theorem kp_run_opt {α : Type} (σ : JMap → JMap) {key : String}
    {d : Value → Except DecodeError α} (hkp : KP σ key) :
    ∀ x, (opt key d).run (σ x) = ((opt key d).run x).map fun p => (p.1, σ p.2) :=
  fun x => transp_opt key d (show key ∈ [key] by simp) σ
    (fun k hk => by rw [List.mem_singleton.mp hk]; exact hkp) x

theorem kp_run_req_with {α : Type} (σ : JMap → JMap) {key : String}
    {d : Value → Except DecodeError α} (hkp : KP σ key) :
    ∀ x, (req_with key d).run (σ x)
      = ((req_with key d).run x).map fun p => (p.1, σ p.2) :=
  fun x => transp_req_with key d (show key ∈ [key] by simp) σ
    (fun k hk => by rw [List.mem_singleton.mp hk]; exact hkp) x

theorem kp_run_req_f64 (σ : JMap → JMap) {key : String} (hkp : KP σ key) :
    ∀ x, (req_f64 key).run (σ x)
      = ((req_f64 key).run x).map fun p => (p.1, σ p.2) :=
  fun x => transp_req_f64 key (show key ∈ [key] by simp) σ
    (fun k hk => by rw [List.mem_singleton.mp hk]; exact hkp) x

theorem kp_run_req_str (σ : JMap → JMap) {key : String} (hkp : KP σ key) :
    ∀ x, (req_str key).run (σ x)
      = ((req_str key).run x).map fun p => (p.1, σ p.2) :=
  fun x => transp_req_str key (show key ∈ [key] by simp) σ
    (fun k hk => by rw [List.mem_singleton.mp hk]; exact hkp) x

/-- One step of an erased-key run that ends in the missing-field error: the
step itself commutes with the transformation, so the error must be produced
by the continuation. -/
theorem step_err (σ : JMap → JMap) {α β : Type} {st : Dec α}
    {cont : α → Dec β} {e : DecodeError} {m : JMap}
    (hst : ∀ x, st.run (σ x) = (st.run x).map fun p => (p.1, σ p.2))
    (hok : isOk ((st >>= cont).run m) = true)
    (next : ∀ a m1, st.run m = .ok (a, m1) → isOk ((cont a).run m1) = true →
      (cont a).run (σ m1) = .error e) :
    (st >>= cont).run (σ m) = .error e := by
  rw [run_bind, hst m]
  rw [run_bind] at hok
  cases hp : st.run m with
  | error e2 =>
    rw [hp] at hok
    simp [isOk, bind_error] at hok
  | ok p =>
    have hok2 : isOk ((cont p.1).run p.2) = true := by
      rw [hp] at hok
      exact hok
    show (cont p.1).run (σ p.2) = .error e
    exact next p.1 p.2 (by rw [hp]) hok2

/-- One value-preserving step of an erased-key run whose overall result is
the transformed original result. -/
theorem step_map (σ : JMap → JMap) {α β : Type} {st : Dec α}
    {contL contR : α → Dec β} {g : β → β} {m : JMap}
    (hst : ∀ x, st.run (σ x) = (st.run x).map fun p => (p.1, σ p.2))
    (hok : isOk ((st >>= contR).run m) = true)
    (next : ∀ a m1, st.run m = .ok (a, m1) → isOk ((contR a).run m1) = true →
      (contL a).run (σ m1) = ((contR a).run m1).map fun p => (g p.1, σ p.2)) :
    (st >>= contL).run (σ m)
      = ((st >>= contR).run m).map fun p => (g p.1, σ p.2) := by
  rw [run_bind, run_bind, hst m]
  rw [run_bind] at hok
  cases hp : st.run m with
  | error e =>
    rw [hp] at hok
    simp [isOk, bind_error] at hok
  | ok p =>
    have hok2 : isOk ((contR p.1).run p.2) = true := by
      rw [hp] at hok
      exact hok
    show (contL p.1).run (σ p.2) = ((contR p.1).run p.2).map fun p => (g p.1, σ p.2)
    exact next p.1 p.2 (by rw [hp]) hok2

/-- An `opt` step over a key the transformation erases: the erased run sees
the field as absent and continues with `none` on the unchanged map. -/
theorem step_opt_clear (σ : JMap → JMap) {α β : Type} (key : String)
    {d : Value → Except DecodeError α} {contL contR : Option α → Dec β}
    {g : β → β} {m : JMap}
    (habs : ∀ x, jlookup (σ x) key = none)
    (hstate : ∀ x, σ (eraseKey key x) = σ x)
    (hok : isOk ((opt key d >>= contR).run m) = true)
    (next : ∀ a m1, (opt key d).run m = .ok (a, m1) →
      isOk ((contR a).run m1) = true →
      (contL none).run (σ m1) = ((contR a).run m1).map fun p => (g p.1, σ p.2)) :
    (opt key d >>= contL).run (σ m)
      = ((opt key d >>= contR).run m).map fun p => (g p.1, σ p.2) := by
  rw [run_bind, run_bind, opt_absent key d (σ m) (habs m), bind_ok]
  rw [run_bind] at hok
  cases hp : (opt key d).run m with
  | error e =>
    rw [hp] at hok
    simp [isOk, bind_error] at hok
  | ok p =>
    have hok2 : isOk ((contR p.1).run p.2) = true := by
      rw [hp] at hok
      exact hok
    have hms : σ p.2 = σ m := opt_ok_state key d m p hp σ (hstate m)
    rw [← hms]
    show (contL none).run (σ p.2) = ((contR p.1).run p.2).map fun p => (g p.1, σ p.2)
    exact next p.1 p.2 hp hok2

theorem forecast_decode_obj (m : JMap) :
    Forecast.decode (.obj m) = (Forecast.decodeM.run m).map fun p => p.1 := rfl

theorem step_req_f64_absent (σ : JMap → JMap) {β : Type} {key : String}
    {cont : Rat → Dec β} {m : JMap} (habs : jlookup (σ m) key = none) :
    (req_f64 key >>= cont).run (σ m) = .error (.Missing key) := by
  rw [run_bind, req_f64_absent key (σ m) habs, bind_error]

/-- C4: removing the `latitude` key from any Forecast JSON object that
otherwise decodes successfully makes `Forecast::decode` fail with exactly
the missing-required-field error naming `latitude`, and no other error. -/
theorem c4_missing_latitude (m : JMap)
    (h : isOk (Forecast.decode (.obj m)) = true) :
    Forecast.decode (.obj (eraseKey "latitude" m))
      = .error (.Missing "latitude") := by
  have h1 : isOk (Forecast.decodeM.run m) = true := by
    rw [forecast_decode_obj, isOk_map] at h
    exact h
  have main : Forecast.decodeM.run (eraseKey "latitude" m)
      = .error (.Missing "latitude") := by
    unfold Forecast.decodeM at h1 ⊢
    refine step_err (eraseKey "latitude")
      (kp_run_opt _ (KP_erase _ _ (by decide))) h1 ?_
    intro alerts m1 hs1 hok1
    refine step_err (eraseKey "latitude")
      (kp_run_req_with _ (KP_erase _ _ (by decide))) hok1 ?_
    intro currently m2 hs2 hok2
    refine step_err (eraseKey "latitude")
      (kp_run_req_with _ (KP_erase _ _ (by decide))) hok2 ?_
    intro daily m3 hs3 hok3
    refine step_err (eraseKey "latitude")
      (kp_run_req_with _ (KP_erase _ _ (by decide))) hok3 ?_
    intro flags m4 hs4 hok4
    refine step_err (eraseKey "latitude")
      (kp_run_req_with _ (KP_erase _ _ (by decide))) hok4 ?_
    intro hourly m5 hs5 hok5
    exact step_req_f64_absent (eraseKey "latitude") (jlookup_eraseKey_self _ _)
  rw [forecast_decode_obj, main]
  rfl

/-- Witness for C4 at the concrete complete document. -/
theorem c4_witness :
    Forecast.decode (.obj (eraseKey "latitude" fullDocMap))
      = .error (.Missing "latitude") :=
  c4_missing_latitude fullDocMap (by decide)

/-- Set the two optional slots of a decoded forecast to their absent values
(empty `alerts`, no `minutely`). -/
def Forecast.clearOptionalBlocks (f : Forecast) : Forecast :=
  ⟨[], f.currently, f.daily, f.flags, f.hourly, f.latitude, f.longitude, none,
    f.offset, f.timezone⟩

/-- C1 counterexample: the spec's minimal four-field document fails to
decode — the claimed success is refuted because `Current::decode` requires
`apparentTemperature` (and `Forecast::decode` requires `daily`, `flags`,
`hourly` and `offset`). -/
theorem c1_counterexample :
    Forecast.decode (.obj minimalDocMap)
      = .error (.Missing "apparentTemperature") := rfl

/-- C1 (amended): on a complete document (all required fields of this
version: `currently`, `daily`, `flags`, `hourly`, `latitude`, `longitude`,
`offset`, `timezone`) without `alerts` and `minutely`, `Forecast::decode`
succeeds with empty `alerts`, `minutely = None`, `currently.icon =
Icon::ClearDay` and `currently.temperature = 72.5`; and in general absence
of only the `alerts` and `minutely` keys never by itself makes decode fail:
erasing both from any successfully-decoding document yields the same
forecast with `alerts = []` and `minutely = None`. -/
theorem c1_optional_blocks :
    ((Forecast.decode (.obj fullDocMap)).map
        (fun f => (f.alerts, f.minutely, f.currently.icon,
          f.currently.temperature))
      = .ok ([], none, Icon.ClearDay, (145 : Rat) / 2))
    ∧ ∀ m : JMap, isOk (Forecast.decode (.obj m)) = true →
        Forecast.decode (.obj (eraseKey "minutely" (eraseKey "alerts" m)))
          = (Forecast.decode (.obj m)).map Forecast.clearOptionalBlocks := by
  constructor
  · rfl
  · intro m h
    have h1 : isOk (Forecast.decodeM.run m) = true := by
      rw [forecast_decode_obj, isOk_map] at h
      exact h
    have habs_al : ∀ x : JMap,
        jlookup (eraseKey "minutely" (eraseKey "alerts" x)) "alerts" = none := by
      intro x
      rw [jlookup_eraseKey_ne _ _ (by decide), jlookup_eraseKey_self]
    have hstate_al : ∀ x : JMap,
        eraseKey "minutely" (eraseKey "alerts" (eraseKey "alerts" x))
          = eraseKey "minutely" (eraseKey "alerts" x) := by
      intro x
      rw [eraseKey_idem]
    have habs_min : ∀ x : JMap,
        jlookup (eraseKey "minutely" (eraseKey "alerts" x)) "minutely" = none := by
      intro x
      rw [jlookup_eraseKey_self]
    have hstate_min : ∀ x : JMap,
        eraseKey "minutely" (eraseKey "alerts" (eraseKey "minutely" x))
          = eraseKey "minutely" (eraseKey "alerts" x) := by
      intro x
      rw [eraseKey_eraseKey "minutely" "alerts", eraseKey_idem]
    have main : Forecast.decodeM.run (eraseKey "minutely" (eraseKey "alerts" m))
        = (Forecast.decodeM.run m).map fun p =>
            (Forecast.clearOptionalBlocks p.1,
              eraseKey "minutely" (eraseKey "alerts" p.2)) := by
      unfold Forecast.decodeM at h1 ⊢
      refine step_opt_clear (fun x => eraseKey "minutely" (eraseKey "alerts" x))
        "alerts" habs_al hstate_al h1 ?_
      intro alerts m1 hs1 hok1
      refine step_map (fun x => eraseKey "minutely" (eraseKey "alerts" x))
        (kp_run_req_with _
          (KP_comp (KP_erase _ _ (by decide)) (KP_erase _ _ (by decide))))
        hok1 ?_
      intro currently m2 hs2 hok2
      refine step_map (fun x => eraseKey "minutely" (eraseKey "alerts" x))
        (kp_run_req_with _
          (KP_comp (KP_erase _ _ (by decide)) (KP_erase _ _ (by decide))))
        hok2 ?_
      intro daily m3 hs3 hok3
      refine step_map (fun x => eraseKey "minutely" (eraseKey "alerts" x))
        (kp_run_req_with _
          (KP_comp (KP_erase _ _ (by decide)) (KP_erase _ _ (by decide))))
        hok3 ?_
      intro flags m4 hs4 hok4
      refine step_map (fun x => eraseKey "minutely" (eraseKey "alerts" x))
        (kp_run_req_with _
          (KP_comp (KP_erase _ _ (by decide)) (KP_erase _ _ (by decide))))
        hok4 ?_
      intro hourly m5 hs5 hok5
      refine step_map (fun x => eraseKey "minutely" (eraseKey "alerts" x))
        (kp_run_req_f64 _
          (KP_comp (KP_erase _ _ (by decide)) (KP_erase _ _ (by decide))))
        hok5 ?_
      intro latitude m6 hs6 hok6
      refine step_map (fun x => eraseKey "minutely" (eraseKey "alerts" x))
        (kp_run_req_f64 _
          (KP_comp (KP_erase _ _ (by decide)) (KP_erase _ _ (by decide))))
        hok6 ?_
      intro longitude m7 hs7 hok7
      refine step_opt_clear (fun x => eraseKey "minutely" (eraseKey "alerts" x))
        "minutely" habs_min hstate_min hok7 ?_
      intro minutely m8 hs8 hok8
      refine step_map (fun x => eraseKey "minutely" (eraseKey "alerts" x))
        (kp_run_req_f64 _
          (KP_comp (KP_erase _ _ (by decide)) (KP_erase _ _ (by decide))))
        hok8 ?_
      intro offset m9 hs9 hok9
      refine step_map (fun x => eraseKey "minutely" (eraseKey "alerts" x))
        (kp_run_req_str _
          (KP_comp (KP_erase _ _ (by decide)) (KP_erase _ _ (by decide))))
        hok9 ?_
      intro timezone m10 hs10 hok10
      rfl
    rw [forecast_decode_obj, forecast_decode_obj, main]
    cases Forecast.decodeM.run m <;> rfl

/-- Witness for C1's general part at a complete document carrying both
optional keys. -/
theorem c1_witness :
    Forecast.decode (.obj (eraseKey "minutely" (eraseKey "alerts" fullDocMap2)))
      = (Forecast.decode (.obj fullDocMap2)).map Forecast.clearOptionalBlocks :=
  c1_optional_blocks.2 fullDocMap2 (by decide)

end Darksky
